import Mathlib

/-!
Verification of the authentication / authorization / tenant-isolation gate of
the Study-Abroad-Platform repository, as a shallow embedding in Lean 4.

The embedding follows the TypeScript source:
* `server/src/utils/jwt.ts` — token issuance, verification, header parsing;
* `server/src/middleware/auth.ts` — permission / role / ownership middleware;
* `server/src/middleware/rateLimiter.ts` — the configured rate limiters;
* `server/src/models/Agency.ts` — `findBySubdomain`;
* `shared/src/types` — `JWTPayload`, `USER_ROLES`, `AGENCY_STATUS`, `PERMISSIONS`.

The behaviour of the two external libraries the source delegates to is embedded
from those libraries' documented semantics:
* `jsonwebtoken`: `jwt.sign` embeds the given claim object together with the
  registered claims from the options (`iss`, `aud`, `iat`, `exp`); `jwt.verify`
  checks, in this order, the signature (`JsonWebTokenError "invalid signature"`),
  the expiry (`TokenExpiredError` when `clockTimestamp >= exp`), the audience and
  the issuer (both `JsonWebTokenError`).
* `express-rate-limit`: a fixed-window counter per key; a request increments the
  counter and is rejected when the incremented count exceeds `max`; with
  `skipSuccessfulRequests` the counter is decremented again when the response
  finishes with status < 400 (which can only happen for admitted requests).

JavaScript-specific behaviour that matters is modelled explicitly: string
falsiness (`""` is falsy) and `String.prototype.split` with a one-character
separator (strings are `List Char` where split behaviour is proved about).
-/

/-! ## Shared constants (shared/src/types/index.ts) -/

def USER_ROLES_SUPER_ADMIN : String := "super_admin"

def USER_ROLES_CLIENT : String := "client"

def USER_ROLES_AGENCY_ADMIN : String := "admin"

def USER_ROLES_AGENCY_EDITOR : String := "editor"

def USER_ROLES_AGENCY_VIEWER : String := "viewer"

def AGENCY_STATUS_ACTIVE : String := "active"

def AGENCY_STATUS_INACTIVE : String := "inactive"

def AGENCY_STATUS_SUSPENDED : String := "suspended"

def PERMISSIONS_MANAGE_STUDENTS : String := "manage_students"

/-- Shared `JWTPayload` from shared/src/types: the principal payload placed into a
session token. `agencyId` is optional in the interface. -/
structure JWTPayload where
  userId : String
  email : String
  role : String
  agencyId : Option String := none
  permissions : List String := []
deriving DecidableEq, Repr

/-! ## Token model (server/src/utils/jwt.ts) -/

/-- Claim set of a signed token. Fields that a given `jwt.sign` call does not
put into the payload object are `none` (absent claims).  `iss`, `aud`, `iat`
and `exp` are the registered claims added from the sign options. -/
structure Claims where
  userId : String
  email : String
  role : Option String := none
  agencyId : Option String := none
  permissions : Option (List String) := none
  type : Option String := none
  iss : String
  aud : String
  iat : Nat
  exp : Nat
deriving DecidableEq, Repr

/-- A signed token: the claim set plus the secret it was signed with.  The
signature is abstracted as the signing secret itself; `jwt.verify` with secret
`s` accepts exactly the tokens whose recorded secret is `s`. -/
structure SignedToken where
  claims : Claims
  secret : String
deriving DecidableEq, Repr

def JWT_ISSUER : String := "study-abroad-saas"

def SESSION_AUDIENCE : String := "saas-users"

def RESET_AUDIENCE : String := "password-reset"

/-- Default `JWT_EXPIRES_IN` of `'7d'`, in seconds. -/
def JWT_EXPIRES_IN : Nat := 7 * 24 * 3600

/-- Default `JWT_REFRESH_EXPIRES_IN` of `'30d'`, in seconds. -/
def JWT_REFRESH_EXPIRES_IN : Nat := 30 * 24 * 3600

/-- Expiry `'1h'` of the password-reset token, in seconds. -/
def RESET_EXPIRES_IN : Nat := 3600

deriving instance DecidableEq for Except

/-- Errors surfaced by the `jsonwebtoken` library's `verify`. -/
inductive JwtLibError where
  | tokenExpiredError : JwtLibError
  | jsonWebTokenError : String → JwtLibError
deriving DecidableEq, Repr

/-- Embedding of `jwt.verify(token, secret, {issuer, audience})` at clock time
`now` (seconds).  Check order follows the jsonwebtoken library: signature,
then expiry (`clockTimestamp >= exp`), then audience, then issuer. -/
def jwtVerify (tok : SignedToken) (secret issuer audience : String) (now : Nat) :
    Except JwtLibError Claims :=
  if tok.secret ≠ secret then
    Except.error (JwtLibError.jsonWebTokenError "invalid signature")
  else if tok.claims.exp ≤ now then
    Except.error JwtLibError.tokenExpiredError
  else if tok.claims.aud ≠ audience then
    Except.error (JwtLibError.jsonWebTokenError "jwt audience invalid")
  else if tok.claims.iss ≠ issuer then
    Except.error (JwtLibError.jsonWebTokenError "jwt issuer invalid")
  else
    Except.ok tok.claims

/-- Model of `generateAccessToken(payload)`: signs `{...payload, type: 'access'}` with
issuer `study-abroad-saas`, audience `saas-users`, expiry `JWT_EXPIRES_IN`. -/
def generateAccessToken (secret : String) (payload : JWTPayload) (now : Nat) :
    SignedToken :=
  { claims :=
      { userId := payload.userId
        email := payload.email
        role := some payload.role
        agencyId := payload.agencyId
        permissions := some payload.permissions
        type := some "access"
        iss := JWT_ISSUER
        aud := SESSION_AUDIENCE
        iat := now
        exp := now + JWT_EXPIRES_IN }
    secret := secret }

/-- Argument type of `generateRefreshToken`: `Omit<JWTPayload, 'permissions'>`. -/
structure RefreshPayload where
  userId : String
  email : String
  role : String
  agencyId : Option String := none
deriving DecidableEq, Repr

/-- Model of `generateRefreshToken(payload)`: signs only
`{userId, email, role, type: 'refresh'}` — the payload object literal in the
source names exactly these four keys, so no other claim is embedded. -/
def generateRefreshToken (secret : String) (payload : RefreshPayload) (now : Nat) :
    SignedToken :=
  { claims :=
      { userId := payload.userId
        email := payload.email
        role := some payload.role
        agencyId := none
        permissions := none
        type := some "refresh"
        iss := JWT_ISSUER
        aud := SESSION_AUDIENCE
        iat := now
        exp := now + JWT_REFRESH_EXPIRES_IN }
    secret := secret }

/-- Model of `generateTokens(payload)`: the access token from the full payload and the
refresh token from `{userId, email, role, agencyId}`. -/
def generateTokens (secret : String) (payload : JWTPayload) (now : Nat) :
    SignedToken × SignedToken :=
  (generateAccessToken secret payload now,
   generateRefreshToken secret
     { userId := payload.userId
       email := payload.email
       role := payload.role
       agencyId := payload.agencyId } now)

/-- Error vocabulary of `verifyToken` in jwt.ts. -/
inductive TokenError where
  | tokenExpired : TokenError
  | invalidToken : TokenError
  | verificationFailed : TokenError
deriving DecidableEq, Repr

/-- Model of `verifyToken(token)`: `jwt.verify` against issuer `study-abroad-saas` and
audience `saas-users`; `TokenExpiredError` becomes `Token expired`, any other
`JsonWebTokenError` becomes `Invalid token`. -/
def verifyToken (secret : String) (tok : SignedToken) (now : Nat) :
    Except TokenError Claims :=
  match jwtVerify tok secret JWT_ISSUER SESSION_AUDIENCE now with
  | Except.ok c => Except.ok c
  | Except.error JwtLibError.tokenExpiredError => Except.error TokenError.tokenExpired
  | Except.error (JwtLibError.jsonWebTokenError _) => Except.error TokenError.invalidToken

/-- Model of `generatePasswordResetToken(userId, email)`: signs
`{userId, email, type: 'password_reset'}` with audience `password-reset` and
expiry 1h. -/
def generatePasswordResetToken (secret userId email : String) (now : Nat) :
    SignedToken :=
  { claims :=
      { userId := userId
        email := email
        role := none
        agencyId := none
        permissions := none
        type := some "password_reset"
        iss := JWT_ISSUER
        aud := RESET_AUDIENCE
        iat := now
        exp := now + RESET_EXPIRES_IN }
    secret := secret }

/-- Error vocabulary of `verifyPasswordResetToken` in jwt.ts. -/
inductive ResetTokenError where
  | resetTokenExpired : ResetTokenError
  | invalidResetToken : ResetTokenError
  | resetVerificationFailed : ResetTokenError
deriving DecidableEq, Repr

/-- Model of `verifyPasswordResetToken(token)`: `jwt.verify` against audience
`password-reset`; then a `type` check whose failure (`Invalid token type`, a
plain `Error`) falls through the catch to the generic
`Password reset token verification failed` branch. -/
def verifyPasswordResetToken (secret : String) (tok : SignedToken) (now : Nat) :
    Except ResetTokenError (String × String) :=
  match jwtVerify tok secret JWT_ISSUER RESET_AUDIENCE now with
  | Except.ok c =>
      if c.type ≠ some "password_reset" then
        Except.error ResetTokenError.resetVerificationFailed
      else
        Except.ok (c.userId, c.email)
  | Except.error JwtLibError.tokenExpiredError =>
      Except.error ResetTokenError.resetTokenExpired
  | Except.error (JwtLibError.jsonWebTokenError _) =>
      Except.error ResetTokenError.invalidResetToken

/-! ## C1, C3, C10 -/

/-- C1: verifying an access token issued for principal `P`, with the session
issuer and audience and before its expiry, succeeds and returns a claim set
agreeing with `P` on every `JWTPayload` field (`userId`, `email`, `role`,
`agencyId`, `permissions`); only the timing claims `iat`, `exp` (and the token
kind marker) are added. -/
theorem access_token_roundtrip (secret : String) (p : JWTPayload) (now t : Nat)
    (h : t < now + JWT_EXPIRES_IN) :
    ∃ c, verifyToken secret (generateAccessToken secret p now) t = Except.ok c ∧
      c.userId = p.userId ∧ c.email = p.email ∧ c.role = some p.role ∧
      c.agencyId = p.agencyId ∧ c.permissions = some p.permissions ∧
      c.iat = now ∧ c.exp = now + JWT_EXPIRES_IN := by
  refine ⟨(generateAccessToken secret p now).claims, ?_, rfl, rfl, rfl, rfl, rfl, rfl, rfl⟩
  simp [verifyToken, jwtVerify, generateAccessToken, Nat.not_le.mpr h]

/-- Witness for C1 at a concrete principal. -/
theorem access_token_roundtrip_witness :
    ∃ c, verifyToken "k" (generateAccessToken "k"
        { userId := "u1", email := "a@b.c", role := "viewer",
          agencyId := some "ag1", permissions := ["manage_students"] } 100) 100
      = Except.ok c ∧
      c.userId = "u1" ∧ c.email = "a@b.c" ∧ c.role = some "viewer" ∧
      c.agencyId = some "ag1" ∧ c.permissions = some ["manage_students"] ∧
      c.iat = 100 ∧ c.exp = 100 + JWT_EXPIRES_IN :=
  access_token_roundtrip "k"
    { userId := "u1", email := "a@b.c", role := "viewer",
      agencyId := some "ag1", permissions := ["manage_students"] } 100 100
    (by simp [JWT_EXPIRES_IN])

/-- C3: the refresh token signs exactly `{userId, email, role, type='refresh'}`
plus the registered timing claims: its `permissions` claim is absent (never a
non-empty list), and the same holds for the refresh half of `generateTokens`. -/
theorem refresh_token_claim_set (secret : String) (rp : RefreshPayload)
    (p : JWTPayload) (now : Nat) :
    (generateRefreshToken secret rp now).claims =
      { userId := rp.userId, email := rp.email, role := some rp.role,
        agencyId := none, permissions := none, type := some "refresh",
        iss := JWT_ISSUER, aud := SESSION_AUDIENCE,
        iat := now, exp := now + JWT_REFRESH_EXPIRES_IN } ∧
    (generateTokens secret p now).2.claims.permissions = none := by
  exact ⟨rfl, rfl⟩

/-- C10: even when the principal payload carries an `agencyId` (which
`generateTokens` forwards into `generateRefreshToken`'s argument), the signed
refresh token has no `agencyId` claim at all. -/
theorem refresh_token_drops_agencyId (secret : String) (p : JWTPayload)
    (now : Nat) (a : String) (h : p.agencyId = some a) :
    (generateTokens secret p now).2.claims.agencyId = none := by
  rfl

/-- Witness for C10 at a concrete payload carrying an agencyId. -/
theorem refresh_token_drops_agencyId_witness :
    (generateTokens "k"
      { userId := "u1", email := "a@b.c", role := "admin",
        agencyId := some "ag1", permissions := [] } 5).2.claims.agencyId = none :=
  refresh_token_drops_agencyId "k"
    { userId := "u1", email := "a@b.c", role := "admin",
      agencyId := some "ag1", permissions := [] } 5 "ag1" rfl

/-! ## C5 (corrected) -/

/-- C5 counterexample: a token that is both expired (`exp = 5 < 10 = now`) and
signed with a different secret is rejected as `Invalid token`, not as
`Token expired` — the library checks the signature before the expiry. -/
theorem expired_wrong_secret_not_tokenExpired :
    verifyToken "k"
      { claims := { userId := "u", email := "e", iss := JWT_ISSUER,
                    aud := SESSION_AUDIENCE, iat := 0, exp := 5 },
        secret := "other" } 10 = Except.error TokenError.invalidToken ∧
    ¬ verifyToken "k"
      { claims := { userId := "u", email := "e", iss := JWT_ISSUER,
                    aud := SESSION_AUDIENCE, iat := 0, exp := 5 },
        secret := "other" } 10 = Except.error TokenError.tokenExpired := by
  constructor
  · rfl
  · intro h
    exact absurd h (by decide)

/-- C5 amended: a token whose `exp` is in the past yields `TokenExpired`
provided its signature is valid; a token signed with a different secret yields
`Invalid token` regardless of its expiry (signature is checked first). -/
theorem expired_token_error (secret : String) (tok : SignedToken) (t : Nat) :
    (tok.secret = secret → tok.claims.exp ≤ t →
      verifyToken secret tok t = Except.error TokenError.tokenExpired) ∧
    (tok.secret ≠ secret →
      verifyToken secret tok t = Except.error TokenError.invalidToken) := by
  constructor
  · intro hs he
    simp [verifyToken, jwtVerify, hs, he]
  · intro hs
    simp [verifyToken, jwtVerify, hs]

/-- Witness for the amended C5: both branches at concrete tokens. -/
theorem expired_token_error_witness :
    verifyToken "k"
      { claims := { userId := "u", email := "e", iss := JWT_ISSUER,
                    aud := SESSION_AUDIENCE, iat := 0, exp := 5 },
        secret := "k" } 10 = Except.error TokenError.tokenExpired ∧
    verifyToken "k"
      { claims := { userId := "u", email := "e", iss := JWT_ISSUER,
                    aud := SESSION_AUDIENCE, iat := 0, exp := 99 },
        secret := "other" } 10 = Except.error TokenError.invalidToken :=
  ⟨(expired_token_error "k"
      { claims := { userId := "u", email := "e", iss := JWT_ISSUER,
                    aud := SESSION_AUDIENCE, iat := 0, exp := 5 },
        secret := "k" } 10).1 rfl (by decide),
   (expired_token_error "k"
      { claims := { userId := "u", email := "e", iss := JWT_ISSUER,
                    aud := SESSION_AUDIENCE, iat := 0, exp := 99 },
        secret := "other" } 10).2 (by decide)⟩

/-! ## C4 (corrected) -/

/-- C4 counterexample: a fresh, validly signed password-reset token presented
to the session verifier is rejected with the generic `Invalid token` error —
the very same error a token signed with the wrong secret receives — because
`verifyToken` collapses every `JsonWebTokenError` (audience mismatch included)
into `Invalid token`; no distinct audience-mismatch error exists in its error
vocabulary (`Token expired`, `Invalid token`, `Token verification failed`). -/
theorem reset_token_generic_rejection :
    verifyToken "k" (generatePasswordResetToken "k" "u" "e" 0) 100
      = Except.error TokenError.invalidToken ∧
    verifyToken "k"
      { claims := { userId := "u", email := "e", iss := JWT_ISSUER,
                    aud := SESSION_AUDIENCE, iat := 0, exp := 9999 },
        secret := "other" } 100 = Except.error TokenError.invalidToken := by
  exact ⟨rfl, rfl⟩

/-- C4 amended: a password-reset token presented to the session verifier always
fails — with the generic `Invalid token` error while unexpired (not a distinct
audience-mismatch error) — and symmetrically a session access token presented
to `verifyPasswordResetToken` always fails, with
`Invalid password reset token` while unexpired. -/
theorem cross_audience_rejection (secret u e : String) (p : JWTPayload)
    (now t : Nat) :
    (∃ err, verifyToken secret (generatePasswordResetToken secret u e now) t
       = Except.error err) ∧
    (t < now + RESET_EXPIRES_IN →
      verifyToken secret (generatePasswordResetToken secret u e now) t
        = Except.error TokenError.invalidToken) ∧
    (∃ err2, verifyPasswordResetToken secret (generateAccessToken secret p now) t
       = Except.error err2) ∧
    (t < now + JWT_EXPIRES_IN →
      verifyPasswordResetToken secret (generateAccessToken secret p now) t
        = Except.error ResetTokenError.invalidResetToken) := by
  refine ⟨?_, ?_, ?_, ?_⟩
  · by_cases h : now + RESET_EXPIRES_IN ≤ t
    · exact ⟨TokenError.tokenExpired,
        by simp [verifyToken, jwtVerify, generatePasswordResetToken, h]⟩
    · exact ⟨TokenError.invalidToken,
        by simp [verifyToken, jwtVerify, generatePasswordResetToken, h,
                 RESET_AUDIENCE, SESSION_AUDIENCE]⟩
  · intro h
    simp [verifyToken, jwtVerify, generatePasswordResetToken, Nat.not_le.mpr h,
          RESET_AUDIENCE, SESSION_AUDIENCE]
  · by_cases h : now + JWT_EXPIRES_IN ≤ t
    · exact ⟨ResetTokenError.resetTokenExpired,
        by simp [verifyPasswordResetToken, jwtVerify, generateAccessToken, h]⟩
    · exact ⟨ResetTokenError.invalidResetToken,
        by simp [verifyPasswordResetToken, jwtVerify, generateAccessToken, h,
                 RESET_AUDIENCE, SESSION_AUDIENCE]⟩
  · intro h
    simp [verifyPasswordResetToken, jwtVerify, generateAccessToken,
          Nat.not_le.mpr h, RESET_AUDIENCE, SESSION_AUDIENCE]

/-- Witness for the amended C4 at concrete inputs. -/
theorem cross_audience_rejection_witness :
    verifyToken "k" (generatePasswordResetToken "k" "u" "e" 0) 100
      = Except.error TokenError.invalidToken ∧
    verifyPasswordResetToken "k"
      (generateAccessToken "k"
        { userId := "u", email := "e", role := "viewer", agencyId := none,
          permissions := [] } 0) 100
      = Except.error ResetTokenError.invalidResetToken :=
  ⟨(cross_audience_rejection "k" "u" "e"
      { userId := "u", email := "e", role := "viewer", agencyId := none,
        permissions := [] } 0 100).2.1 (by simp [RESET_EXPIRES_IN]),
   (cross_audience_rejection "k" "u" "e"
      { userId := "u", email := "e", role := "viewer", agencyId := none,
        permissions := [] } 0 100).2.2.2 (by simp [JWT_EXPIRES_IN])⟩

/-! ## Header extraction (server/src/utils/jwt.ts, extractTokenFromHeader) -/

/-- JavaScript `String.prototype.split` with a one-character separator, on
strings as `List Char`: `"".split(sep)` is `[""]`, a leading/trailing/double
separator contributes empty parts. -/
def splitOnChar (sep : Char) : List Char → List (List Char)
  | [] => [[]]
  | c :: cs =>
    match splitOnChar sep cs with
    | [] => [[]]
    | g :: gs => if c = sep then [] :: g :: gs else (c :: g) :: gs

theorem splitOnChar_of_not_mem (sep : Char) :
    ∀ s : List Char, sep ∉ s → splitOnChar sep s = [s]
  | [], _ => rfl
  | c :: cs, h => by
    simp only [List.mem_cons, not_or] at h
    have hc : ¬ c = sep := fun e => h.1 e.symm
    simp [splitOnChar, splitOnChar_of_not_mem sep cs h.2, hc]

theorem splitOnChar_append (sep : Char) :
    ∀ p t : List Char, sep ∉ p → sep ∉ t →
      splitOnChar sep (p ++ sep :: t) = [p, t]
  | [], t, _, ht => by
    simp [splitOnChar, splitOnChar_of_not_mem sep t ht]
  | c :: p, t, hp, ht => by
    simp only [List.mem_cons, not_or] at hp
    have hc : ¬ c = sep := fun e => hp.1 e.symm
    simp [splitOnChar, splitOnChar_append sep p t hp.2 ht, hc]

/-- The literal string `'Bearer'` as a character list. -/
def bearerChars : List Char := "Bearer".toList

/-- Model of `extractTokenFromHeader(authHeader)`: `null` for an absent or falsy (empty)
header; otherwise split on `' '` and return `null` unless there are exactly two
parts whose first is `'Bearer'`, in which case return the second part. -/
def extractTokenFromHeader (authHeader : Option (List Char)) :
    Option (List Char) :=
  match authHeader with
  | none => none
  | some h =>
    if h = [] then none
    else
      match splitOnChar ' ' h with
      | [p0, p1] => if p0 = bearerChars then some p1 else none
      | _ => none

/-! ## C2 -/

/-- C2: an absent header yields no token; a header that does not split into
exactly two space-separated parts, or whose first part is not the literal
`Bearer`, yields no token; and every header of the form `Bearer <t>` (with
`<t>` free of spaces, so that the split has exactly two parts) yields `<t>`. -/
theorem extract_token_spec :
    extractTokenFromHeader none = none ∧
    (∀ h : List Char, (splitOnChar ' ' h).length ≠ 2 →
      extractTokenFromHeader (some h) = none) ∧
    (∀ h p0 p1 : List Char, splitOnChar ' ' h = [p0, p1] → p0 ≠ bearerChars →
      extractTokenFromHeader (some h) = none) ∧
    (∀ t : List Char, ' ' ∉ t →
      extractTokenFromHeader (some (bearerChars ++ ' ' :: t)) = some t) := by
  refine ⟨rfl, ?_, ?_, ?_⟩
  · intro h hlen
    by_cases he : h = []
    · simp [extractTokenFromHeader, he]
    · simp only [extractTokenFromHeader, if_neg he]
      cases hs : splitOnChar ' ' h with
      | nil => rfl
      | cons g gs =>
        cases gs with
        | nil => rfl
        | cons g2 gs2 =>
          cases gs2 with
          | nil => exact absurd (by simp [hs]) hlen
          | cons g3 gs3 => rfl
  · intro h p0 p1 hs hp0
    by_cases he : h = []
    · simp [extractTokenFromHeader, he]
    · simp [extractTokenFromHeader, if_neg he, hs, hp0]
  · intro t ht
    have hne : bearerChars ++ ' ' :: t ≠ [] := by simp [bearerChars]
    have hb : (' ' : Char) ∉ bearerChars := by decide
    simp [extractTokenFromHeader, if_neg hne,
          splitOnChar_append ' ' bearerChars t hb ht]

/-- Witness for C2 at concrete headers: a well-formed header, a malformed one
(three parts), one with the wrong scheme word, and the absent header. -/
theorem extract_token_spec_witness :
    extractTokenFromHeader (some "Bearer abc".toList) = some "abc".toList ∧
    extractTokenFromHeader (some "Bearer a b".toList) = none ∧
    extractTokenFromHeader (some "Basic abc".toList) = none ∧
    extractTokenFromHeader none = none :=
  ⟨by
    have := extract_token_spec.2.2.2 "abc".toList (by decide)
    simpa [bearerChars] using this,
   extract_token_spec.2.1 "Bearer a b".toList (by decide),
   extract_token_spec.2.2.1 "Basic abc".toList "Basic".toList "abc".toList
     (by decide) (by decide),
   extract_token_spec.1⟩

/-! ## Agency store (server/src/models/Agency.ts) and gate errors -/

/-- Fields of an agency document that the gate reads. -/
structure AgencyRec where
  id : String
  clientId : String
  subdomain : String
  status : String
deriving DecidableEq, Repr

/-- Model of `Agency.findById(id)` over a store of agency documents. -/
def findById (store : List AgencyRec) (id : String) : Option AgencyRec :=
  store.find? (fun a => a.id == id)

/-- Model of `Agency.findBySubdomain(subdomain)` =
`findOne({ subdomain, status: AGENCY_STATUS.ACTIVE })`: the first document
matching both the subdomain and the `active` status. -/
def findBySubdomain (store : List AgencyRec) (subdomain : String) :
    Option AgencyRec :=
  store.find? (fun a => a.subdomain == subdomain && a.status == AGENCY_STATUS_ACTIVE)

/-- Errors thrown by the middleware via the errorMiddleware helpers:
`unauthorizedError` is a 401 `CustomError`, `forbiddenError` a 403 one. -/
inductive GateError where
  | unauthorized : String → GateError
  | forbidden : String → GateError
deriving DecidableEq, Repr

/-- Model of `validateAgencySubdomain`: requires `req.params.subdomain` (absent or the
falsy empty string fails), then `Agency.findBySubdomain`; a missing result is
`Agency not found or inactive`. -/
def validateAgencySubdomain (store : List AgencyRec) (subdomain : Option String) :
    Except GateError AgencyRec :=
  match subdomain with
  | none => Except.error (GateError.forbidden "Agency subdomain is required")
  | some s =>
    if s = "" then Except.error (GateError.forbidden "Agency subdomain is required")
    else
      match findBySubdomain store s with
      | none => Except.error (GateError.forbidden "Agency not found or inactive")
      | some a => Except.ok a

/-! ## C6 -/

/-- C6: when every stored record for subdomain `s` has status other than
`active` (so in particular a single `suspended` or `inactive` tenant), the
lookup returns `none` and the middleware answers exactly as it does for a
subdomain with no record at all: suspended and absent tenants are
observationally indistinguishable. -/
theorem suspended_tenant_indistinguishable (store : List AgencyRec) (s : String)
    (hs : s ≠ "")
    (h : ∀ a ∈ store, a.subdomain = s → a.status ≠ AGENCY_STATUS_ACTIVE) :
    findBySubdomain store s = none ∧
    findBySubdomain [] s = none ∧
    validateAgencySubdomain store (some s) =
      Except.error (GateError.forbidden "Agency not found or inactive") ∧
    validateAgencySubdomain store (some s) = validateAgencySubdomain [] (some s) := by
  have hfind : findBySubdomain store s = none := by
    apply List.find?_eq_none.mpr
    intro a ha
    simp only [Bool.and_eq_true, beq_iff_eq, not_and]
    exact fun h1 => h a ha h1
  refine ⟨hfind, rfl, ?_, ?_⟩
  · simp [validateAgencySubdomain, hs, hfind]
  · have hempty : findBySubdomain [] s = none := rfl
    simp [validateAgencySubdomain, hs, hfind, hempty]

/-- Witness for C6: a store holding one suspended and one inactive record for
the probed subdomain resolves exactly like the empty store. -/
theorem suspended_tenant_indistinguishable_witness :
    findBySubdomain
      [{ id := "a1", clientId := "c1", subdomain := "acme",
         status := "suspended" },
       { id := "a2", clientId := "c1", subdomain := "acme",
         status := "inactive" }] "acme" = none ∧
    findBySubdomain [] "acme" = none ∧
    validateAgencySubdomain
      [{ id := "a1", clientId := "c1", subdomain := "acme",
         status := "suspended" },
       { id := "a2", clientId := "c1", subdomain := "acme",
         status := "inactive" }] (some "acme") =
      Except.error (GateError.forbidden "Agency not found or inactive") ∧
    validateAgencySubdomain
      [{ id := "a1", clientId := "c1", subdomain := "acme",
         status := "suspended" },
       { id := "a2", clientId := "c1", subdomain := "acme",
         status := "inactive" }] (some "acme") =
      validateAgencySubdomain [] (some "acme") :=
  suspended_tenant_indistinguishable
    [{ id := "a1", clientId := "c1", subdomain := "acme", status := "suspended" },
     { id := "a2", clientId := "c1", subdomain := "acme", status := "inactive" }]
    "acme" (by decide) (by decide)

/-! ## Permission middleware (server/src/middleware/auth.ts) -/

/-- Model of `requirePermission(permission)`: 401 without a user; 403 when the user's
`permissions` array is absent or does not include the permission. -/
def requirePermission (permission : String) (user : Option Claims) :
    Except GateError Unit :=
  match user with
  | none => Except.error (GateError.unauthorized "Authentication required")
  | some u =>
    match u.permissions with
    | none =>
        Except.error (GateError.forbidden ("Permission required: " ++ permission))
    | some ps =>
        if permission ∈ ps then Except.ok ()
        else Except.error (GateError.forbidden ("Permission required: " ++ permission))

/-- Model of `requirePermissions(permissions)`: 401 without a user; 403 unless every
listed permission is included in the user's `permissions` array (an absent
array satisfies nothing). -/
def requirePermissions (permissions : List String) (user : Option Claims) :
    Except GateError Unit :=
  match user with
  | none => Except.error (GateError.unauthorized "Authentication required")
  | some u =>
    if permissions.all (fun p =>
        match u.permissions with
        | some ps => decide (p ∈ ps)
        | none => false) then
      Except.ok ()
    else
      Except.error (GateError.forbidden
        ("Permissions required: " ++ String.intercalate ", " permissions))

/-! ## C8 -/

/-- C8: an authenticated principal whose permission set lacks
`manage_students` is always refused by the `manage_students` permission guard
(also when the set is absent, and also through the ALL-of variant when
`manage_students` is among the required list); a request is granted exactly
when the permission is a member of the principal's permission set, and the
outcome never depends on the principal's role. -/
theorem manage_students_permission_gate :
    (∀ u : Claims, ∀ ps : List String, u.permissions = some ps →
      PERMISSIONS_MANAGE_STUDENTS ∉ ps →
      requirePermission PERMISSIONS_MANAGE_STUDENTS (some u) =
        Except.error (GateError.forbidden
          ("Permission required: " ++ PERMISSIONS_MANAGE_STUDENTS))) ∧
    (∀ u : Claims, u.permissions = none →
      requirePermission PERMISSIONS_MANAGE_STUDENTS (some u) =
        Except.error (GateError.forbidden
          ("Permission required: " ++ PERMISSIONS_MANAGE_STUDENTS))) ∧
    (∀ u : Claims, ∀ ps perms : List String, u.permissions = some ps →
      PERMISSIONS_MANAGE_STUDENTS ∈ perms →
      PERMISSIONS_MANAGE_STUDENTS ∉ ps →
      requirePermissions perms (some u) =
        Except.error (GateError.forbidden
          ("Permissions required: " ++ String.intercalate ", " perms))) ∧
    (∀ u : Claims, ∀ p : String,
      (requirePermission p (some u) = Except.ok () ↔
        ∃ ps, u.permissions = some ps ∧ p ∈ ps)) ∧
    (∀ u : Claims, ∀ p : String, ∀ r : Option String,
      requirePermission p (some u) =
        requirePermission p (some { u with role := r })) := by
  refine ⟨?_, ?_, ?_, ?_, ?_⟩
  · intro u ps hps hmem
    simp [requirePermission, hps, hmem]
  · intro u hps
    simp [requirePermission, hps]
  · intro u ps perms hps hin hmem
    have hall : ¬ (perms.all (fun p =>
        match u.permissions with
        | some l => decide (p ∈ l)
        | none => false)) = true := by
      simp only [List.all_eq_true]
      intro hallmem
      have h2 := hallmem PERMISSIONS_MANAGE_STUDENTS hin
      rw [hps] at h2
      simp only [decide_eq_true_eq] at h2
      exact hmem h2
    have hall2 : (perms.all (fun p =>
        match u.permissions with
        | some l => decide (p ∈ l)
        | none => false)) = false := Bool.eq_false_iff.mpr hall
    simp [requirePermissions, hall2]
  · intro u p
    cases hps : u.permissions with
    | none => simp [requirePermission, hps]
    | some ps =>
      by_cases hmem : p ∈ ps
      · simp [requirePermission, hps, hmem]
      · simp [requirePermission, hps, hmem]
  · intro u p r
    simp only [requirePermission]

/-- Witness for C8 at a concrete viewer principal lacking `manage_students`. -/
theorem manage_students_permission_gate_witness :
    requirePermission PERMISSIONS_MANAGE_STUDENTS
      (some { userId := "u1", email := "v@a.c", role := some "viewer",
              agencyId := some "ag1", permissions := some ["view_analytics"],
              type := some "access", iss := "study-abroad-saas",
              aud := "saas-users", iat := 0, exp := 10 }) =
      Except.error (GateError.forbidden
        ("Permission required: " ++ PERMISSIONS_MANAGE_STUDENTS)) :=
  manage_students_permission_gate.1
    { userId := "u1", email := "v@a.c", role := some "viewer",
      agencyId := some "ag1", permissions := some ["view_analytics"],
      type := some "access", iss := "study-abroad-saas",
      aud := "saas-users", iat := 0, exp := 10 }
    ["view_analytics"] rfl (by decide)

/-! ## Resource ownership (server/src/middleware/auth.ts) -/

/-- JavaScript `a || b` on an optional string against a default: an absent or
empty (falsy) left operand yields the right one. -/
def jsOrString (a : Option String) (b : String) : String :=
  match a with
  | some s => if s = "" then b else s
  | none => b

/-- Model of `requireResourceOwnership(resourceParam)`: 401 without a user; a
`super_admin` passes unconditionally; a `client` on an `agencies` route must
own the agency fetched by `req.params[resourceParam]`; finally a user carrying
a (truthy) `agencyId` is compared against
`req.params.agencyId || req.user.agencyId` and refused on mismatch. -/
def requireResourceOwnership (store : List AgencyRec) (user : Option Claims)
    (resourceId paramsAgencyId : Option String) (routePathHasAgencies : Bool) :
    Except GateError Unit :=
  match user with
  | none => Except.error (GateError.unauthorized "Authentication required")
  | some u =>
    if u.role = some USER_ROLES_SUPER_ADMIN then Except.ok ()
    else
      match (if u.role = some USER_ROLES_CLIENT ∧ routePathHasAgencies = true then
               match resourceId.bind (findById store) with
               | none => some (GateError.forbidden "Access denied to this resource")
               | some ag =>
                 if ag.clientId ≠ u.userId then
                   some (GateError.forbidden "Access denied to this resource")
                 else none
             else none) with
      | some e => Except.error e
      | none =>
        match u.agencyId with
        | none => Except.ok ()
        | some aid =>
          if aid = "" then Except.ok ()
          else
            if jsOrString paramsAgencyId aid ≠ aid then
              Except.error (GateError.forbidden "Access denied to this agency resource")
            else Except.ok ()

/-! ## C7 -/

/-- C7: a `super_admin` principal passes the ownership check unconditionally;
an agency-tier principal (role neither `super_admin` nor `client`) carrying a
tenant id `aid` and targeting an explicit resource tenant `rid` passes exactly
when `rid = aid`, and on mismatch fails with the 403
`Access denied to this agency resource`. -/
theorem ownership_check (store : List AgencyRec) (u : Claims)
    (resourceId paramsAgencyId : Option String) (routePathHasAgencies : Bool)
    (aid rid : String) :
    (u.role = some USER_ROLES_SUPER_ADMIN →
      requireResourceOwnership store (some u) resourceId paramsAgencyId
        routePathHasAgencies = Except.ok ()) ∧
    (u.role ≠ some USER_ROLES_SUPER_ADMIN → u.role ≠ some USER_ROLES_CLIENT →
      u.agencyId = some aid → aid ≠ "" →
      paramsAgencyId = some rid → rid ≠ "" →
      (requireResourceOwnership store (some u) resourceId paramsAgencyId
          routePathHasAgencies = Except.ok () ↔ rid = aid) ∧
      (rid ≠ aid →
        requireResourceOwnership store (some u) resourceId paramsAgencyId
            routePathHasAgencies =
          Except.error (GateError.forbidden "Access denied to this agency resource"))) := by
  constructor
  · intro hrole
    simp [requireResourceOwnership, hrole]
  · intro hsa hcl haid haid0 hparams hrid
    have hclient : ¬ (u.role = some USER_ROLES_CLIENT ∧ routePathHasAgencies = true) :=
      fun hc => hcl hc.1
    constructor
    · by_cases hr : rid = aid
      · simp [requireResourceOwnership, hsa, hclient, haid, haid0, hparams,
              jsOrString, hrid, hr]
      · simp [requireResourceOwnership, hsa, hclient, haid, haid0, hparams,
              jsOrString, hrid, hr]
    · intro hr
      simp [requireResourceOwnership, hsa, hclient, haid, haid0, hparams,
            jsOrString, hrid, hr]

/-- A concrete operator principal, as decoded from a session token. -/
def operatorClaims : Claims :=
  { userId := "u0"
    email := "s@a.c"
    role := some "super_admin"
    iss := "study-abroad-saas"
    aud := "saas-users"
    iat := 0
    exp := 10 }

/-- A concrete agency-viewer principal bound to tenant `ag1`. -/
def viewerClaims : Claims :=
  { userId := "u1"
    email := "v@a.c"
    role := some "viewer"
    agencyId := some "ag1"
    iss := "study-abroad-saas"
    aud := "saas-users"
    iat := 0
    exp := 10 }

/-- Witness for C7: the operator bypass, a matching agency user, and a
mismatched agency user, at concrete inputs. -/
theorem ownership_check_witness :
    requireResourceOwnership [] (some operatorClaims) none (some "other") true
      = Except.ok () ∧
    requireResourceOwnership [] (some viewerClaims) none (some "ag1") false
      = Except.ok () ∧
    requireResourceOwnership [] (some viewerClaims) none (some "ag2") false
      = Except.error (GateError.forbidden "Access denied to this agency resource") :=
  ⟨(ownership_check [] operatorClaims none (some "other") true "" "").1 rfl,
   ((ownership_check [] viewerClaims none (some "ag1") false "ag1" "ag1").2
      (by decide) (by decide) rfl (by decide) rfl (by decide)).1.mpr rfl,
   ((ownership_check [] viewerClaims none (some "ag2") false "ag1" "ag2").2
      (by decide) (by decide) rfl (by decide) rfl (by decide)).2 (by decide)⟩

/-! ## Rate limiter (server/src/middleware/rateLimiter.ts) -/

/-- Configuration of an express-rate-limit limiter as used in the source. -/
structure RateLimitConfig where
  windowMs : Nat
  max : Nat
  skipSuccessfulRequests : Bool
deriving DecidableEq, Repr

/-- Configuration of `authRateLimiter`: `windowMs: 15 * 60 * 1000`, `max: 5`,
`skipSuccessfulRequests: true`. -/
def authRateLimiter : RateLimitConfig :=
  { windowMs := 15 * 60 * 1000, max := 5, skipSuccessfulRequests := true }

/-- Per-key window state of the limiter's memory store. -/
structure RateWindow where
  count : Nat
  windowEnd : Nat
deriving DecidableEq, Repr

/-- Window rollover: an elapsed window restarts with a zero counter. -/
def resetIfElapsed (cfg : RateLimitConfig) (w : RateWindow) (t : Nat) :
    RateWindow :=
  if w.windowEnd ≤ t then { count := 0, windowEnd := t + cfg.windowMs } else w

/-- One request through an express-rate-limit limiter at time `t`: the counter
is incremented and the request rejected when the incremented count exceeds
`max`; `success` tells whether the admitted request's response ended with
status < 400, in which case `skipSuccessfulRequests` undoes the increment
(a rejected request answers 429, so it is never undone). -/
def handleRequest (cfg : RateLimitConfig) (w : RateWindow) (t : Nat)
    (success : Bool) : Bool × RateWindow :=
  let w1 := resetIfElapsed cfg w t
  let hits := w1.count + 1
  if hits ≤ cfg.max then
    (true,
     { count := if success && cfg.skipSuccessfulRequests then hits - 1 else hits,
       windowEnd := w1.windowEnd })
  else
    (false, { count := hits, windowEnd := w1.windowEnd })

/-! ## C9 -/

/-- C9: for the auth limiter (max 5, 15-minute window, successes skipped):
within a live window a request is admitted exactly while fewer than 5 requests
are on the counter — so the 6th counted request is rejected — a request
arriving once the window has elapsed is admitted again on a fresh counter, a
counted (failed) admitted request raises the counter by one, and a successful
admitted request leaves the counter unchanged, never accruing toward the cap. -/
theorem auth_rate_limit_spec (w : RateWindow) (t : Nat) (success : Bool) :
    (t < w.windowEnd → w.count < 5 →
      (handleRequest authRateLimiter w t success).1 = true) ∧
    (t < w.windowEnd → 5 ≤ w.count →
      (handleRequest authRateLimiter w t success).1 = false) ∧
    (w.windowEnd ≤ t →
      (handleRequest authRateLimiter w t success).1 = true ∧
      (handleRequest authRateLimiter w t success).2.windowEnd
        = t + authRateLimiter.windowMs) ∧
    (t < w.windowEnd → w.count < 5 →
      (handleRequest authRateLimiter w t false).2.count = w.count + 1) ∧
    (t < w.windowEnd → w.count < 5 →
      (handleRequest authRateLimiter w t true).2.count = w.count) := by
  have hmax : authRateLimiter.max = 5 := rfl
  have hskip : authRateLimiter.skipSuccessfulRequests = true := rfl
  refine ⟨?_, ?_, ?_, ?_, ?_⟩
  · intro hw hc
    have h4 : w.count ≤ 4 := by omega
    simp [handleRequest, resetIfElapsed, Nat.not_le.mpr hw, hmax, h4]
  · intro hw hc
    have h4 : ¬ w.count ≤ 4 := by omega
    simp [handleRequest, resetIfElapsed, Nat.not_le.mpr hw, hmax, h4]
  · intro hw
    simp [handleRequest, resetIfElapsed, hw, hmax]
  · intro hw hc
    have h4 : w.count ≤ 4 := by omega
    simp [handleRequest, resetIfElapsed, Nat.not_le.mpr hw, hmax, hskip, h4]
  · intro hw hc
    have h4 : w.count ≤ 4 := by omega
    simp [handleRequest, resetIfElapsed, Nat.not_le.mpr hw, hmax, hskip, h4]

/-- Witness for C9: a six-request burst of failed logins in one window — five
admissions then a rejection — a fresh admission after the window elapses, and
a successful attempt that leaves the counter where it was. -/
theorem auth_rate_limit_spec_witness :
    (handleRequest authRateLimiter { count := 0, windowEnd := 900000 } 0 false).1
      = true ∧
    (handleRequest authRateLimiter { count := 4, windowEnd := 900000 } 4 false).1
      = true ∧
    (handleRequest authRateLimiter { count := 5, windowEnd := 900000 } 5 false).1
      = false ∧
    (handleRequest authRateLimiter { count := 5, windowEnd := 900000 } 900000
      false).1 = true ∧
    (handleRequest authRateLimiter { count := 3, windowEnd := 900000 } 6
      true).2.count = 3 :=
  ⟨(auth_rate_limit_spec { count := 0, windowEnd := 900000 } 0 false).1
      (by decide) (by decide),
   (auth_rate_limit_spec { count := 4, windowEnd := 900000 } 4 false).1
      (by decide) (by decide),
   (auth_rate_limit_spec { count := 5, windowEnd := 900000 } 5 false).2.1
      (by decide) (by decide),
   ((auth_rate_limit_spec { count := 5, windowEnd := 900000 } 900000 false).2.2.1
      (by decide)).1,
   (auth_rate_limit_spec { count := 3, windowEnd := 900000 } 6 true).2.2.2.2
      (by decide) (by decide)⟩
